import Mathlib

/-!
Shallow embedding of `src/utility/main.py` (class `SystemHealthMonitor`) of the
Cross-Platform System Health Monitoring repository, together with theorems
settling the specification claims about it.

External effects (running a diagnostic command, the HTTP POST, the filesystem)
are modelled by explicit environment records; the Python functions become pure
Lean functions of those environments.  Python's tri-state probe results
`True / False / None` are modelled as `Option Bool`.
-/

namespace HealthMonitor

/-- Classification of a Python exception as far as the source distinguishes
them: `subprocessErr` stands for `subprocess.SubprocessError` (which includes
`CalledProcessError` and `TimeoutExpired`), `otherErr` for every other
exception (`FileNotFoundError`, `ValueError`, `IndexError`, `OSError`, ...). -/
inductive PyExn
  | subprocessErr
  | otherErr
deriving DecidableEq

/-- The completed result of `subprocess.run` (fields used by the source). -/
structure CmdResult where
  stdout : String
  returncode : Int
deriving DecidableEq

/-- Outcome of a `subprocess.run` call: either the process completed, or the
call raised an exception of the given classification. -/
inductive CmdOutcome
  | ok (r : CmdResult)
  | exn (e : PyExn)
deriving DecidableEq

/-- Whether the first list starts with the second (on characters). -/
def hasSubstrAt : List Char → List Char → Bool
  | _, [] => true
  | [], _ :: _ => false
  | a :: hs, b :: ns => a = b && hasSubstrAt hs ns

/-- Whether the second list occurs contiguously inside the first. -/
def listContains (hay needle : List Char) : Bool :=
  match hay with
  | [] => hasSubstrAt [] needle
  | _ :: hs => hasSubstrAt hay needle || listContains hs needle

/-- Python's substring test `needle in hay` (on strings). -/
def strContains (hay needle : String) : Bool :=
  listContains hay.data needle.data

/-- Split a character list at every occurrence of `c` (keeping empties). -/
def splitOnChar (c : Char) : List Char → List (List Char)
  | [] => [[]]
  | ch :: rest =>
    if ch = c then [] :: splitOnChar c rest
    else
      match splitOnChar c rest with
      | [] => [[ch]]
      | g :: gs => (ch :: g) :: gs

/-- Python's `s.split("\n")`: split at every newline, keeping empty pieces
(so the empty string yields `[""]`). -/
def pySplitNl (s : String) : List String :=
  (splitOnChar (Char.ofNat 10) s.data).map (fun l => String.mk l)

/-- Python's `str.split()` with no argument: split on runs of whitespace,
discarding empty pieces. -/
def pySplitWs (s : String) : List String :=
  (s.split Char.isWhitespace).filter (fun t => t ≠ "")

/-- Python's `int(s)` on a string: strip surrounding whitespace, optional
sign, then decimal digits; `none` models `int` raising `ValueError`. -/
def pyInt (s : String) : Option Int :=
  let t := s.trim
  if t.startsWith "-" then (t.drop 1).toNat?.map (fun n => -(n : Int))
  else if t.startsWith "+" then (t.drop 1).toNat?.map (fun n => (n : Int))
  else t.toNat?.map (fun n => (n : Int))

/-- Python's `float(s)` on a plain decimal literal (optional sign, integer
part, optional fractional part), as an exact rational; `none` models `float`
raising `ValueError`.  Exponent, `inf` and `nan` forms are not modelled; the
registry-derived minute counts this is applied to are short decimals, which a
binary double represents and compares against 10 exactly as the rational
does. -/
def pyFloatRat (s : String) : Option Rat :=
  let t := s.trim
  let signBody : Rat × String :=
    if t.startsWith "-" then (-1, t.drop 1)
    else if t.startsWith "+" then (1, t.drop 1)
    else (1, t)
  match (signBody.2).splitOn "." with
  | [ip] => ip.toNat?.map (fun n => signBody.1 * n)
  | [ip, fp] =>
      if ip = "" && fp = "" then none
      else
        let ipn : Option Nat := if ip = "" then some 0 else ip.toNat?
        let fpn : Option Nat := if fp = "" then some 0 else fp.toNat?
        match ipn, fpn with
        | some i, some f =>
            some (signBody.1 * ((i : Rat) + (f : Rat) / ((10 : Rat) ^ fp.length)))
        | _, _ => none
  | _ => none

/-- The ambient system as the probes observe it: `platform.system()`,
`platform.version()`, `datetime.now().isoformat()`, and the behaviour of
`subprocess.run` on each argument vector. -/
structure SysEnv where
  system : String
  version : String
  now : String
  run : List String → CmdOutcome

/-- `subprocess.run` with `check=True`: a completed process with a non-zero
return code raises `CalledProcessError`, a `subprocess.SubprocessError`. -/
def runChecked (env : SysEnv) (argv : List String) : CmdOutcome :=
  match env.run argv with
  | .ok r => if r.returncode ≠ 0 then .exn .subprocessErr else .ok r
  | .exn e => .exn e

/-- Tri-state probe result, exactly Python's `True` / `False` / `None`. -/
abbrev ProbeResult := Option Bool

/-- `True`: the check passed. -/
def Compliant : ProbeResult := some true

/-- `False`: the check failed. -/
def NonCompliant : ProbeResult := some false

/-- `None`: the probe could not determine the status. -/
def Unknown : ProbeResult := none

/-- `SystemHealthMonitor.check_disk_encryption` (main.py lines 70-99). -/
def check_disk_encryption (env : SysEnv) : ProbeResult :=
  if env.system = "Darwin" then
    match env.run ["diskutil", "apfs", "list"] with
    | .ok r => some (strContains r.stdout "Encrypted")
    | .exn _ => none
  else if env.system = "Windows" then
    match env.run ["manage-bde", "-status"] with
    | .ok r => some (strContains r.stdout "Protection On")
    | .exn _ => none
  else if env.system = "Linux" then
    match env.run ["lsblk", "-f"] with
    | .ok r => some (strContains r.stdout "LUKS" || strContains r.stdout "crypto")
    | .exn _ => none
  else none

/-- Windows update-count PowerShell command of `check_os_updates`. -/
def winUpdateCmd : List String :=
  ["powershell", "-Command",
   "(New-Object -ComObject Microsoft.Update.AutoUpdate).Results.UpdateCount -eq 0"]

/-- The yum fallback inside the Linux branch of `check_os_updates`: run
`yum check-update --quiet` without `check=True`; return code 0 means no
updates.  Any exception here escapes to the outer handler, giving `None`. -/
def yumFallback (env : SysEnv) : ProbeResult :=
  match env.run ["yum", "check-update", "--quiet"] with
  | .ok r => some (r.returncode = 0)
  | .exn _ => none

/-- `SystemHealthMonitor.check_os_updates` (main.py lines 101-142).  On Linux,
only `subprocess.SubprocessError` (including `TimeoutExpired`) from the two
checked apt calls selects the yum fallback; any other exception (for example
`FileNotFoundError` when apt is absent) reaches the outer handler and yields
`None`. -/
def check_os_updates (env : SysEnv) : ProbeResult :=
  if env.system = "Darwin" then
    match env.run ["softwareupdate", "-l"] with
    | .ok r => some (strContains r.stdout "No new software available")
    | .exn _ => none
  else if env.system = "Windows" then
    match env.run winUpdateCmd with
    | .ok r => some (strContains r.stdout "True")
    | .exn _ => none
  else if env.system = "Linux" then
    match runChecked env ["apt-get", "update", "-qq"] with
    | .ok _ =>
        match runChecked env ["apt-get", "-s", "upgrade"] with
        | .ok r => some (strContains r.stdout "0 upgraded, 0 newly installed")
        | .exn .subprocessErr => yumFallback env
        | .exn .otherErr => none
    | .exn .subprocessErr => yumFallback env
    | .exn .otherErr => none
  else none

/-- Windows Defender status PowerShell command of `check_antivirus`. -/
def winMpStatusCmd : List String :=
  ["powershell", "-Command",
   "Get-MpComputerStatus | Select-Object AntivirusEnabled -ExpandProperty AntivirusEnabled"]

/-- WMI third-party antivirus enumeration command of `check_antivirus`. -/
def winWmiAvCmd : List String :=
  ["powershell", "-Command",
   "Get-WmiObject -Namespace root/SecurityCenter2 -Class AntiVirusProduct | ForEach-Object \x7b $_.displayName \x7d"]

/-- The Linux scanner-binary loop of `check_antivirus`: for each candidate
command, a completed run with return code 0 returns `True`; a raise is
swallowed by the bare `except: continue`; falling off the list returns
`False`. -/
def avLoop (env : SysEnv) : List (List String) → Bool
  | [] => false
  | cmd :: rest =>
    match env.run cmd with
    | .ok r => if r.returncode = 0 then true else avLoop env rest
    | .exn _ => avLoop env rest

/-- The fixed candidate list of the Linux antivirus check. -/
def avChecks : List (List String) :=
  [["clamav", "--version"], ["freshclam", "--version"],
   ["rkhunter", "--version"], ["chkrootkit", "--version"]]

/-- `SystemHealthMonitor.check_antivirus` (main.py lines 144-195).  macOS is
unconditionally `True`; Windows consults Defender then the WMI fallback; Linux
scans the fixed binary list, returning `False` when none responds. -/
def check_antivirus (env : SysEnv) : ProbeResult :=
  if env.system = "Darwin" then some true
  else if env.system = "Windows" then
    match env.run winMpStatusCmd with
    | .exn _ => none
    | .ok r =>
      if strContains r.stdout "True" then some true
      else
        match env.run winWmiAvCmd with
        | .exn _ => none
        | .ok r2 => some (!(r2.stdout.trim.isEmpty))
  else if env.system = "Linux" then some (avLoop env avChecks)
  else none

/-- Windows display-sleep registry query command of `check_sleep_settings`. -/
def winSleepCmd : List String :=
  ["powershell", "-Command",
   "(Get-ItemProperty -Path \x27HKLM:\\SYSTEM\\CurrentControlSet\\Control\\Power\\PowerSettings\\238C9FA8-0AAD-41ED-83F4-97BE242C8F20\\7bc4a2f9-d8fc-4469-b07b-33eb785aaca0\x27 -Name \x27ACSettingIndex\x27).ACSettingIndex / 60"]

/-- The macOS line loop of `check_sleep_settings`: at the first line containing
`displaysleep`, read token 1 and return `minutes <= 10`; a missing token is an
`IndexError` and an unparseable token a `ValueError`, both escaping to the
handler; a loop with no matching line falls through to `return False`. -/
def darwinSleepLoop : List String → Except PyExn Bool
  | [] => .ok false
  | line :: rest =>
    if strContains line "displaysleep" then
      match (pySplitWs line).get? 1 with
      | none => .error .otherErr
      | some w =>
        match pyInt w with
        | none => .error .otherErr
        | some minutes => .ok (minutes ≤ 10)
    else darwinSleepLoop rest

/-- The gsettings attempt of the Linux branch of `check_sleep_settings`:
`some b` is an early `return b`; `none` means control falls through to the
xset attempt (non-zero return code, or any exception absorbed by
`except Exception: pass`). -/
def linuxGsettingsAttempt (env : SysEnv) : Option Bool :=
  match env.run ["gsettings", "get", "org.gnome.settings-daemon.plugins.power",
                 "sleep-inactive-ac-timeout"] with
  | .exn _ => none
  | .ok r =>
    if r.returncode = 0 then
      match pyInt r.stdout.trim with
      | some seconds => some (decide (seconds ≤ 600))
      | none => none
    else none

/-- The xset line loop of the Linux branch of `check_sleep_settings`:
`.ok (some b)` is an early `return b`; `.ok none` is the loop falling through
to `return None`; `.error` is a raise (`list.index` failing, or `int`
failing), caught by the surrounding handler which also yields `None`. -/
def linuxXsetLoop : List String → Except PyExn (Option Bool)
  | [] => .ok none
  | line :: rest =>
    if strContains line "timeout:" && strContains line "DPMS is" then
      let parts := pySplitWs line
      match parts.indexOf? "timeout:" with
      | none => .error .otherErr
      | some i =>
        if h : i + 1 < parts.length then
          match pyInt (parts.get ⟨i + 1, h⟩) with
          | none => .error .otherErr
          | some seconds => .ok (some (decide (seconds ≤ 600)))
        else linuxXsetLoop rest
    else linuxXsetLoop rest

/-- `SystemHealthMonitor.check_sleep_settings` (main.py lines 197-252). -/
def check_sleep_settings (env : SysEnv) : ProbeResult :=
  if env.system = "Darwin" then
    match env.run ["pmset", "-g"] with
    | .exn _ => none
    | .ok r =>
      match darwinSleepLoop (pySplitNl r.stdout) with
      | .ok b => some b
      | .error _ => none
  else if env.system = "Windows" then
    match env.run winSleepCmd with
    | .exn _ => none
    | .ok r =>
      if r.stdout.trim ≠ "" then
        match pyFloatRat r.stdout.trim with
        | some minutes => some (decide (minutes ≤ 10))
        | none => none
      else some false
  else if env.system = "Linux" then
    match linuxGsettingsAttempt env with
    | some b => some b
    | none =>
      match env.run ["xset", "q"] with
      | .exn _ => none
      | .ok r =>
        match linuxXsetLoop (pySplitNl r.stdout) with
        | .ok v => v
        | .error _ => none
  else none

/-- The health report record built by `collect_system_data`.  `checks` is the
Python dict, as an association list in the fixed construction order the source
always uses, so list equality coincides with dict equality for every report the
system builds. -/
structure HealthReport where
  machine_id : String
  timestamp : String
  os_name : String
  os_version : String
  checks : List (String × ProbeResult)
deriving DecidableEq

/-- The four-key checks mapping in the literal order of main.py lines 263-268. -/
def mkChecks (d o a sl : ProbeResult) : List (String × ProbeResult) :=
  [("disk_encryption", d), ("os_updated", o),
   ("antivirus_active", a), ("sleep_settings_ok", sl)]

/-- `SystemHealthMonitor.collect_system_data` (main.py lines 254-271). -/
def collect_system_data (env : SysEnv) (machine_id : String) : HealthReport :=
  { machine_id := machine_id
    timestamp := env.now
    os_name := env.system
    os_version := env.version
    checks := mkChecks (check_disk_encryption env) (check_os_updates env)
      (check_antivirus env) (check_sleep_settings env) }

/-- `SystemHealthMonitor.should_report` (main.py lines 273-283).  The Python
baseline `self.last_report` starts as the falsy `{}` and is only ever assigned
whole reports, so it is modelled as `Option HealthReport` with `none` for
`{}`; for real reports `data.get("checks", {})` is the `checks` field. -/
def should_report (current_data : HealthReport)
    (last_report : Option HealthReport) : Bool :=
  match last_report with
  | none => true
  | some last => decide (current_data.checks ≠ last.checks)

/-- Outcome of the `requests.post` call in `send_report`: an HTTP response
with a status code and body text, a `requests.exceptions.ConnectionError`, or
any other exception (both caught separately in the source, with the same
result). -/
inductive HttpOutcome
  | response (status : Int) (text : String)
  | connectionError
  | otherExn
deriving DecidableEq

/-- Whether the HTTP outcome is a status-200 response. -/
def httpOk : HttpOutcome → Bool
  | .response status _ => status = 200
  | .connectionError => false
  | .otherExn => false

/-- The mutable monitor state the reporting loop touches: the Change Gate
baseline `self.last_report`. -/
structure MonitorState where
  last_report : Option HealthReport
deriving DecidableEq

/-- `SystemHealthMonitor.send_report` (main.py lines 285-315): returns the
boolean success flag and the state after the call; `self.last_report = data`
happens exactly on a 200 response. -/
def send_report (http : HttpOutcome) (data : HealthReport)
    (st : MonitorState) : Bool × MonitorState :=
  match http with
  | .response status _ =>
      if status = 200 then (true, { last_report := some data })
      else (false, st)
  | .connectionError => (false, st)
  | .otherExn => (false, st)

/-- One cycle's environment: what the probes observe, what the HTTP POST
returns, and whether some statement of the cycle body raises an unexpected
exception (modelling `except Exception` at the cycle boundary). -/
structure CycleEnv where
  sys : SysEnv
  http : HttpOutcome
  raise : Bool

/-- The try-body of one iteration of `run_periodic_check` (main.py lines
320-327): collect, gate, conditionally send.  Returns the new state and
whether `send_report` was invoked; `.error` models an exception escaping the
body. -/
def run_cycle_raw (c : CycleEnv) (machine_id : String)
    (st : MonitorState) : Except PyExn (MonitorState × Bool) :=
  if c.raise then .error .otherErr
  else
    let current_data := collect_system_data c.sys machine_id
    if should_report current_data st.last_report then
      .ok ((send_report c.http current_data st).2, true)
    else
      .ok (st, false)

/-- What one pass of the `while True` loop produces: the state carried into
the next pass, whether a delivery was attempted, and the argument passed to
`time.sleep`. -/
structure CycleResult where
  state : MonitorState
  attempted : Bool
  sleep : Nat
deriving DecidableEq

/-- One full iteration of `run_periodic_check` (main.py lines 317-332): the
try-body with its `except Exception` handler (which logs and keeps the prior
state), followed by `time.sleep(self.check_interval)`. -/
def run_periodic_iter (c : CycleEnv) (machine_id : String)
    (st : MonitorState) (check_interval : Nat) : CycleResult :=
  match run_cycle_raw c machine_id st with
  | .ok (st2, attempted) => ⟨st2, attempted, check_interval⟩
  | .error _ => ⟨st, false, check_interval⟩

/-- Finitely many consecutive iterations of the periodic loop, returning the
final state and the per-cycle delivery-attempt flags. -/
def run_cycles (machine_id : String) (check_interval : Nat) :
    List CycleEnv → MonitorState → MonitorState × List Bool
  | [], st => (st, [])
  | c :: cs, st =>
    let r := run_periodic_iter c machine_id st check_interval
    let rest := run_cycles machine_id check_interval cs r.state
    (rest.1, r.attempted :: rest.2)

/-- The state `SystemHealthMonitor.__init__` establishes (main.py line 17):
`self.last_report = {}`, the absent baseline. -/
def initial_state : MonitorState := { last_report := none }

/-- The filesystem and randomness as `_get_machine_id` observes them:
existence of the ID file's directory and of the file, whether `os.makedirs`,
the read and the write succeed, the file's contents, and the fresh
`uuid.uuid4()` string. -/
structure IdEnv where
  dirExists : Bool
  makedirsOk : Bool
  fileExists : Bool
  readOk : Bool
  fileContents : String
  writeOk : Bool
  freshUuid : String
deriving DecidableEq

/-- Side effects `_get_machine_id` can perform (successful operations only:
a failed write performs no write). -/
inductive IdEffect
  | mkdir
  | readFile
  | genUuid
  | writeFile
deriving DecidableEq

/-- `SystemHealthMonitor._get_machine_id` (main.py lines 43-68): ensure the
directory (an `os.makedirs` failure is NOT caught and raises), read the file
if present (`.strip()` on the contents; a read failure raises), otherwise
generate a UUID and attempt to write it.  The write is wrapped in a
`try/except` whose handler (main.py line 66) calls `self.logger.error` — but
`_get_machine_id` runs from `__init__` (line 16) before `self.logger` is
assigned (line 18), so on a failed write the handler itself raises
`AttributeError`, which escapes the call.  Returns the ID and the effects
performed, or the escaping exception. -/
def _get_machine_id (env : IdEnv) : Except PyExn (String × List IdEffect) :=
  let ensureDir : Except PyExn (List IdEffect) :=
    if env.dirExists then .ok []
    else if env.makedirsOk then .ok [.mkdir]
    else .error .otherErr
  match ensureDir with
  | .error e => .error e
  | .ok eff =>
    if env.fileExists then
      if env.readOk then .ok (env.fileContents.trim, eff ++ [.readFile])
      else .error .otherErr
    else
      if env.writeOk then .ok (env.freshUuid, eff ++ [.genUuid, .writeFile])
      else .error .otherErr

/-! ### Helper lemmas and concrete environments -/

/-- Every tri-state value is one of the three `ProbeResult` constants. -/
lemma probe_tristate (v : ProbeResult) :
    v = Compliant ∨ v = NonCompliant ∨ v = Unknown := by
  match v with
  | none => exact Or.inr (Or.inr rfl)
  | some true => exact Or.inl rfl
  | some false => exact Or.inr (Or.inl rfl)

/-- The Change Gate reads nothing but the `checks` fields. -/
lemma should_report_congr (r1 r2 : HealthReport) (b : Option HealthReport)
    (h : r1.checks = r2.checks) : should_report r1 b = should_report r2 b := by
  cases b <;> simp [should_report, h]

/-- A non-200 outcome leaves the state of `send_report` unchanged. -/
lemma send_report_fail_state (http : HttpOutcome) (data : HealthReport)
    (st : MonitorState) (h : httpOk http = false) :
    (send_report http data st).2 = st := by
  cases http with
  | response s t =>
      simp only [httpOk] at h
      simp [send_report, of_decide_eq_false h]
  | connectionError => rfl
  | otherExn => rfl

/-- An environment on an unrecognized OS where every command raises. -/
def envAllRaise : SysEnv :=
  { system := "Plan9", version := "9", now := "t0",
    run := fun _ => .exn .otherErr }

/-- A macOS environment whose commands all complete with empty output. -/
def envDarwinEmpty : SysEnv :=
  { system := "Darwin", version := "23.1", now := "t1",
    run := fun _ => .ok { stdout := "", returncode := 0 } }

/-- A Linux environment where every command raises (no scanner binaries). -/
def envLinuxRaise : SysEnv :=
  { system := "Linux", version := "6.1", now := "t2",
    run := fun _ => .exn .otherErr }

/-- Two reports with identical checks but different identity fields. -/
def reportA : HealthReport :=
  ⟨"m1", "t1", "osA", "v1", mkChecks Compliant Compliant Compliant Compliant⟩

/-- Second report with the same checks as `reportA`. -/
def reportB : HealthReport :=
  ⟨"m2", "t2", "osB", "v2", mkChecks Compliant Compliant Compliant Compliant⟩

/-! ### Claims -/

/-- C1: `should_report` returns true when the baseline is absent; otherwise it
returns true iff the candidate's checks mapping differs from the baseline's
under exact equality; `should_report R (some R)` is false for every report;
equal checks (so changes confined to `timestamp` / `os_version`) never trigger
a report, while changing at least one (in particular exactly one) check's
tri-state value always does. -/
theorem C1_change_gate (r b : HealthReport) :
    should_report r none = true
  ∧ (should_report r (some b) = true ↔ r.checks ≠ b.checks)
  ∧ should_report r (some r) = false
  ∧ (r.checks = b.checks → should_report r (some b) = false)
  ∧ (∀ d o a sl d2 o2 a2 sl2 : ProbeResult,
      (d, o, a, sl) ≠ (d2, o2, a2, sl2) →
      should_report { r with checks := mkChecks d o a sl }
        (some { b with checks := mkChecks d2 o2 a2 sl2 }) = true) := by
  refine ⟨rfl, by simp [should_report], by simp [should_report], ?_, ?_⟩
  · intro h
    simp [should_report, h]
  · intro d o a sl d2 o2 a2 sl2 hne
    simp only [should_report, mkChecks, decide_eq_true_eq, ne_eq,
      List.cons.injEq, Prod.mk.injEq, and_true, true_and, not_and]
    intro hd ho ha
    intro hsl
    exact hne (by simp [hd, ho, ha, hsl])

/-- C1 witness: the gate at concrete inputs (absent baseline; identical
report; a single changed check). -/
theorem C1_change_gate_witness :
    should_report reportA none = true
  ∧ should_report reportA (some reportA) = false
  ∧ should_report
      { reportA with checks := mkChecks NonCompliant Compliant Compliant Compliant }
      (some { reportB with checks := mkChecks Compliant Compliant Compliant Compliant }) = true :=
  ⟨(C1_change_gate reportA reportA).1,
   (C1_change_gate reportA reportA).2.2.1,
   (C1_change_gate reportA reportB).2.2.2.2 NonCompliant Compliant Compliant Compliant
     Compliant Compliant Compliant Compliant (by decide)⟩

/-- C3: `send_report` succeeds exactly on an HTTP 200 response, in which case
the delivered report becomes the new baseline; any other status, a connection
error, or any other exception returns failure and leaves the state (hence the
baseline) unchanged. -/
theorem C3_send_report_spec (data : HealthReport) (st : MonitorState) :
    (∀ t, send_report (.response 200 t) data st = (true, { last_report := some data }))
  ∧ (∀ s t, s ≠ 200 → send_report (.response s t) data st = (false, st))
  ∧ send_report .connectionError data st = (false, st)
  ∧ send_report .otherExn data st = (false, st)
  ∧ (∀ http, (send_report http data st).1 = true ↔ httpOk http = true)
  ∧ (∀ http, httpOk http = false → (send_report http data st).2 = st) := by
  refine ⟨fun t => rfl, ?_, rfl, rfl, ?_, ?_⟩
  · intro s t hs
    simp [send_report, hs]
  · intro http
    cases http with
    | response s t =>
        by_cases hs : s = 200 <;> simp [send_report, httpOk, hs]
    | connectionError => simp [send_report, httpOk]
    | otherExn => simp [send_report, httpOk]
  · intro http h
    exact send_report_fail_state http data st h

/-- C3 witness: a 200 response installs the report as baseline; a 500
response and a connection error do not. -/
theorem C3_send_report_witness :
    send_report (.response 200 "ok") reportA initial_state
      = (true, { last_report := some reportA })
  ∧ send_report (.response 500 "err") reportA initial_state = (false, initial_state)
  ∧ send_report .connectionError reportA initial_state = (false, initial_state) :=
  ⟨(C3_send_report_spec reportA initial_state).1 "ok",
   (C3_send_report_spec reportA initial_state).2.1 500 "err" (by decide),
   (C3_send_report_spec reportA initial_state).2.2.1⟩

/-- C4: every report built by `collect_system_data` carries exactly the four
recognized check names, each bound to one of the three tri-state values; the
builder is a total function, so it succeeds on every environment, including
one where every probe yields `Unknown`. -/
theorem C4_report_structure (env : SysEnv) (machine_id : String) :
    (collect_system_data env machine_id).checks.map Prod.fst =
      ["disk_encryption", "os_updated", "antivirus_active", "sleep_settings_ok"]
  ∧ ∀ p ∈ (collect_system_data env machine_id).checks,
      p.2 = Compliant ∨ p.2 = NonCompliant ∨ p.2 = Unknown := by
  refine ⟨rfl, ?_⟩
  intro p _
  exact probe_tristate p.2

/-- C4 witness: on an environment where every probe is `Unknown`, the report
still has the four keys, and the first entry's value is a tri-state. -/
theorem C4_report_structure_witness :
    (collect_system_data envAllRaise "m").checks.map Prod.fst =
      ["disk_encryption", "os_updated", "antivirus_active", "sleep_settings_ok"]
  ∧ (("disk_encryption", (Unknown : ProbeResult)).2 = Compliant
      ∨ ("disk_encryption", (Unknown : ProbeResult)).2 = NonCompliant
      ∨ ("disk_encryption", (Unknown : ProbeResult)).2 = Unknown) :=
  ⟨(C4_report_structure envAllRaise "m").1,
   (C4_report_structure envAllRaise "m").2 ("disk_encryption", Unknown) (by decide)⟩

/-- C10: the Change Gate's decision depends only on the two checks mappings —
replacing candidate or baseline by any report with equal checks (differing in
machine_id, os_name, timestamp, os_version, ...) never changes the
decision. -/
theorem C10_noninterference (c1 c2 b1 b2 : HealthReport)
    (hc : c1.checks = c2.checks) (hb : b1.checks = b2.checks) :
    should_report c1 (some b1) = should_report c2 (some b2)
  ∧ should_report c1 none = should_report c2 none := by
  constructor
  · simp [should_report, hc, hb]
  · rfl

/-- C10 witness: two report pairs agreeing only on checks decide alike. -/
theorem C10_noninterference_witness :
    should_report reportA (some reportA) = should_report reportB (some reportB)
  ∧ should_report reportA none = should_report reportB none :=
  C10_noninterference reportA reportB reportA reportB rfl rfl

/-- C2 counterexample: the claim "every probe returns Unknown whenever it
cannot determine status" is false on the code.  On macOS, `pmset -g` output
with no `displaysleep` line makes `check_sleep_settings` fall through to
`return False` (NonCompliant); on Linux, `check_antivirus` returns
NonCompliant when every scanner binary is unavailable (each `subprocess.run`
raises and the bare `except` continues the loop, which ends in
`return False`). -/
theorem C2_probes_counterexample :
    check_sleep_settings envDarwinEmpty = NonCompliant
  ∧ check_antivirus envLinuxRaise = NonCompliant
  ∧ NonCompliant ≠ Unknown := by
  refine ⟨by decide, by decide, by decide⟩

/-- C2 (amended): every probe returns Unknown on an unrecognized OS, and
`disk_encryption`, `os_updated` and `sleep_settings_ok` return Unknown when
every external command invocation raises; but `antivirus_active` on Linux
returns NonCompliant when all scanner invocations raise (binaries absent), and
a command that completes whose output merely lacks the expected field can
yield NonCompliant rather than Unknown. -/
theorem C2_probes_amended (env : SysEnv) :
    (env.system ≠ "Darwin" → env.system ≠ "Windows" → env.system ≠ "Linux" →
       check_disk_encryption env = Unknown ∧ check_os_updates env = Unknown
     ∧ check_antivirus env = Unknown ∧ check_sleep_settings env = Unknown)
  ∧ ((∀ argv, ∃ e, env.run argv = .exn e) →
       check_disk_encryption env = Unknown ∧ check_os_updates env = Unknown
     ∧ check_sleep_settings env = Unknown
     ∧ (env.system = "Windows" → check_antivirus env = Unknown)
     ∧ (env.system = "Linux" → check_antivirus env = NonCompliant)) := by
  constructor
  · intro h1 h2 h3
    refine ⟨?_, ?_, ?_, ?_⟩ <;>
      simp [check_disk_encryption, check_os_updates, check_antivirus,
        check_sleep_settings, h1, h2, h3, Unknown]
  · intro h
    refine ⟨?_, ?_, ?_, ?_, ?_⟩
    · by_cases hd : env.system = "Darwin"
      · obtain ⟨e, he⟩ := h ["diskutil", "apfs", "list"]
        simp [check_disk_encryption, hd, he, Unknown]
      · by_cases hw : env.system = "Windows"
        · obtain ⟨e, he⟩ := h ["manage-bde", "-status"]
          simp [check_disk_encryption, hd, hw, he, Unknown]
        · by_cases hl : env.system = "Linux"
          · obtain ⟨e, he⟩ := h ["lsblk", "-f"]
            simp [check_disk_encryption, hd, hw, hl, he, Unknown]
          · simp [check_disk_encryption, hd, hw, hl, Unknown]
    · by_cases hd : env.system = "Darwin"
      · obtain ⟨e, he⟩ := h ["softwareupdate", "-l"]
        simp [check_os_updates, hd, he, Unknown]
      · by_cases hw : env.system = "Windows"
        · obtain ⟨e, he⟩ := h winUpdateCmd
          simp [check_os_updates, hd, hw, he, Unknown]
        · by_cases hl : env.system = "Linux"
          · obtain ⟨e, he⟩ := h ["apt-get", "update", "-qq"]
            obtain ⟨e2, he2⟩ := h ["yum", "check-update", "--quiet"]
            cases e <;>
              simp [check_os_updates, hd, hw, hl, runChecked, he,
                yumFallback, he2, Unknown]
          · simp [check_os_updates, hd, hw, hl, Unknown]
    · by_cases hd : env.system = "Darwin"
      · obtain ⟨e, he⟩ := h ["pmset", "-g"]
        simp [check_sleep_settings, hd, he, Unknown]
      · by_cases hw : env.system = "Windows"
        · obtain ⟨e, he⟩ := h winSleepCmd
          simp [check_sleep_settings, hd, hw, he, Unknown]
        · by_cases hl : env.system = "Linux"
          · obtain ⟨e, he⟩ := h ["gsettings", "get",
              "org.gnome.settings-daemon.plugins.power", "sleep-inactive-ac-timeout"]
            obtain ⟨e2, he2⟩ := h ["xset", "q"]
            simp [check_sleep_settings, hd, hw, hl,
              linuxGsettingsAttempt, he, he2, Unknown]
          · simp [check_sleep_settings, hd, hw, hl, Unknown]
    · intro hw
      obtain ⟨e, he⟩ := h winMpStatusCmd
      have hd : env.system ≠ "Darwin" := by
        rw [hw]; decide
      simp [check_antivirus, hd, hw, he, Unknown]
    · intro hl
      have hd : env.system ≠ "Darwin" := by
        rw [hl]; decide
      have hw : env.system ≠ "Windows" := by
        rw [hl]; decide
      have hloop : ∀ cmds : List (List String), avLoop env cmds = false := by
        intro cmds
        induction cmds with
        | nil => rfl
        | cons c cs ih =>
            obtain ⟨e, he⟩ := h c
            simp [avLoop, he, ih]
      simp [check_antivirus, hd, hw, hl, hloop, NonCompliant]

/-- C2 amended witness: the amended statement instantiated on the
unrecognized-OS all-raising environment and on the all-raising Linux
environment. -/
theorem C2_probes_amended_witness :
    (check_disk_encryption envAllRaise = Unknown
      ∧ check_os_updates envAllRaise = Unknown
      ∧ check_antivirus envAllRaise = Unknown
      ∧ check_sleep_settings envAllRaise = Unknown)
  ∧ check_antivirus envLinuxRaise = NonCompliant :=
  ⟨(C2_probes_amended envAllRaise).1 (by decide) (by decide) (by decide),
   ((C2_probes_amended envLinuxRaise).2
      (fun _ => ⟨.otherErr, rfl⟩)).2.2.2.2 rfl⟩

/-- A failing input for C5: the ID file and its directory are both absent,
and `os.makedirs` fails (for example a permission error on the parent). -/
def idEnvNoDir : IdEnv :=
  { dirExists := false, makedirsOk := false, fileExists := false,
    readOk := true, fileContents := "", writeOk := true, freshUuid := "fresh" }

/-- A failing input for C5: the ID file is absent, its directory is present,
and the write of the fresh UUID fails (for example an unwritable home
directory). -/
def idEnvWriteFail : IdEnv :=
  { dirExists := true, makedirsOk := true, fileExists := false,
    readOk := true, fileContents := "", writeOk := false,
    freshUuid := "fresh-id" }

/-- C5: the claim — with the identity file absent, a fresh UUID is returned
regardless of the persist outcome, persistence errors being logged and
non-fatal — states the code's evident intent (the write sits in a logging
`except` handler precisely so its failure would not propagate), but the code
is broken on both persistence-error paths.  A failed `os.makedirs` (main.py
line 54) is outside any try/except and raises; and a failed write reaches the
handler at line 66, whose `self.logger.error` call itself raises
`AttributeError`, because `_get_machine_id` is invoked from `__init__`
(line 16) before `self.logger` is assigned (line 18).  Evaluating the
embedding at both failing inputs — the identity file absent in each — the
call raises instead of returning the fresh ID. -/
theorem C5_identity_code_bug :
    _get_machine_id idEnvWriteFail = .error .otherErr
  ∧ _get_machine_id idEnvNoDir = .error .otherErr
  ∧ idEnvWriteFail.fileExists = false
  ∧ idEnvNoDir.fileExists = false :=
  ⟨rfl, rfl, rfl, rfl⟩

/-- C8: once the identity file exists (with its directory, and the read
succeeding), `_get_machine_id` returns the trimmed file contents, and its only
effect is the read: no UUID is generated, nothing is written, no directory is
created — so repeated calls return the same value with no further side
effects. -/
theorem C8_identity_idempotent (env : IdEnv) (hf : env.fileExists = true)
    (hd : env.dirExists = true) (hr : env.readOk = true) :
    _get_machine_id env = .ok (env.fileContents.trim, [IdEffect.readFile])
  ∧ IdEffect.genUuid ∉ [IdEffect.readFile]
  ∧ IdEffect.writeFile ∉ [IdEffect.readFile]
  ∧ IdEffect.mkdir ∉ [IdEffect.readFile] := by
  refine ⟨by simp [_get_machine_id, hf, hd, hr], by decide, by decide, by decide⟩

/-- The identity environment C8's witness uses: the file already exists with
whitespace-padded contents. -/
def idEnvExisting : IdEnv :=
  { dirExists := true, makedirsOk := true, fileExists := true,
    readOk := true, fileContents := " abc-123 ", writeOk := true,
    freshUuid := "unused" }

/-- C8 witness: with an existing file the call returns the trimmed contents
and performs only the read. -/
theorem C8_identity_idempotent_witness :
    _get_machine_id idEnvExisting = .ok (idEnvExisting.fileContents.trim, [IdEffect.readFile])
  ∧ IdEffect.genUuid ∉ [IdEffect.readFile]
  ∧ IdEffect.writeFile ∉ [IdEffect.readFile]
  ∧ IdEffect.mkdir ∉ [IdEffect.readFile] :=
  C8_identity_idempotent idEnvExisting rfl rfl rfl

/-- A cycle that runs normally but whose delivery gets a 500 response. -/
def cycleFail : CycleEnv :=
  { sys := envDarwinEmpty, http := .response 500 "err", raise := false }

/-- A cycle whose body raises an unexpected exception. -/
def cycleRaise : CycleEnv :=
  { sys := envDarwinEmpty, http := .otherExn, raise := true }

/-- One loop pass whose cycle does not deliver successfully keeps an absent
baseline absent and always attempts delivery. -/
lemma iter_no_baseline (c : CycleEnv) (mid : String) (st : MonitorState)
    (interval : Nat) (hr : c.raise = false) (hh : httpOk c.http = false)
    (hb : st.last_report = none) :
    run_periodic_iter c mid st interval = ⟨st, true, interval⟩ := by
  have hgate : should_report (collect_system_data c.sys mid) st.last_report = true := by
    rw [hb]
    rfl
  have hsend : (send_report c.http (collect_system_data c.sys mid) st).2 = st :=
    send_report_fail_state c.http (collect_system_data c.sys mid) st hh
  simp [run_periodic_iter, run_cycle_raw, hr, hgate, hsend]

/-- C6: after a failed delivery (here any non-200 outcome) the baseline keeps
its prior value and the attempt was made; a following cycle whose observed
posture has the same checks as the failed report's still passes the gate and
attempts delivery again — an undelivered report never suppresses future
attempts. -/
theorem C6_retry_after_failure (c1 c2 : CycleEnv) (mid : String)
    (st : MonitorState) (interval : Nat)
    (h1 : c1.raise = false) (hfail : httpOk c1.http = false)
    (h2 : c2.raise = false)
    (hsame : (collect_system_data c2.sys mid).checks
              = (collect_system_data c1.sys mid).checks)
    (hgate : should_report (collect_system_data c1.sys mid) st.last_report = true) :
    (run_periodic_iter c1 mid st interval).state = st
  ∧ (run_periodic_iter c1 mid st interval).attempted = true
  ∧ (run_periodic_iter c2 mid (run_periodic_iter c1 mid st interval).state
       interval).attempted = true := by
  have hsend : (send_report c1.http (collect_system_data c1.sys mid) st).2 = st :=
    send_report_fail_state c1.http (collect_system_data c1.sys mid) st hfail
  have hiter1 : run_periodic_iter c1 mid st interval = ⟨st, true, interval⟩ := by
    simp [run_periodic_iter, run_cycle_raw, h1, hgate, hsend]
  have hgate2 : should_report (collect_system_data c2.sys mid) st.last_report = true := by
    rw [should_report_congr (collect_system_data c2.sys mid)
      (collect_system_data c1.sys mid) st.last_report hsame]
    exact hgate
  refine ⟨by rw [hiter1], by rw [hiter1], ?_⟩
  rw [hiter1]
  simp [run_periodic_iter, run_cycle_raw, h2, hgate2]

/-- C6 witness: a 500-delivery cycle from the empty baseline leaves the state
unchanged and an identical-posture successor cycle attempts delivery again. -/
theorem C6_retry_after_failure_witness :
    (run_periodic_iter cycleFail "m" initial_state 900).state = initial_state
  ∧ (run_periodic_iter cycleFail "m" initial_state 900).attempted = true
  ∧ (run_periodic_iter cycleFail "m"
       (run_periodic_iter cycleFail "m" initial_state 900).state 900).attempted = true :=
  C6_retry_after_failure cycleFail cycleFail "m" initial_state 900
    rfl (by decide) rfl rfl rfl

/-- C7: one pass of `run_periodic_check`'s loop is a total function of the
cycle environment — an exception escaping the body is caught at the cycle
boundary and leaves the prior state in place — and every pass, successful or
failed, ends by sleeping the full configured interval. -/
theorem C7_cycle_isolation (c : CycleEnv) (mid : String) (st : MonitorState)
    (interval : Nat) :
    (run_periodic_iter c mid st interval).sleep = interval
  ∧ (∀ e, run_cycle_raw c mid st = .error e →
       run_periodic_iter c mid st interval = ⟨st, false, interval⟩)
  ∧ ∃ res : CycleResult, run_periodic_iter c mid st interval = res := by
  refine ⟨?_, ?_, ⟨run_periodic_iter c mid st interval, rfl⟩⟩
  · unfold run_periodic_iter
    match run_cycle_raw c mid st with
    | .ok (st2, att) => rfl
    | .error _ => rfl
  · intro e he
    simp [run_periodic_iter, he]

/-- C7 witness: a raising cycle is swallowed — the state survives and the
loop still sleeps the full interval. -/
theorem C7_cycle_isolation_witness :
    (run_periodic_iter cycleRaise "m" initial_state 900).sleep = 900
  ∧ run_periodic_iter cycleRaise "m" initial_state 900 = ⟨initial_state, false, 900⟩ :=
  ⟨(C7_cycle_isolation cycleRaise "m" initial_state 900).1,
   (C7_cycle_isolation cycleRaise "m" initial_state 900).2.1 .otherErr rfl⟩

/-- Generalisation of C9 over any starting state with an absent baseline. -/
lemma run_cycles_no_success (mid : String) (interval : Nat)
    (envs : List CycleEnv) (st : MonitorState) (hb : st.last_report = none)
    (h : ∀ c ∈ envs, c.raise = false ∧ httpOk c.http = false) :
    (run_cycles mid interval envs st).1.last_report = none
  ∧ ∀ a ∈ (run_cycles mid interval envs st).2, a = true := by
  induction envs generalizing st with
  | nil => exact ⟨hb, by simp [run_cycles]⟩
  | cons c cs ih =>
    obtain ⟨hr, hh⟩ := h c (by simp)
    have hstep : run_periodic_iter c mid st interval = ⟨st, true, interval⟩ :=
      iter_no_baseline c mid st interval hr hh hb
    have hrest := ih st hb (fun d hd => h d (by simp [hd]))
    refine ⟨?_, ?_⟩
    · simpa [run_cycles, hstep] using hrest.1
    · intro a ha
      simp only [run_cycles, hstep] at ha
      rcases List.mem_cons.mp ha with h1 | h2
      · exact h1
      · exact hrest.2 a h2

/-- C9: the baseline starts absent (`__init__` sets `last_report = {}`) and is
assigned only on a 200 delivery; so along any run in which no delivery has yet
succeeded, the state reachable after every cycle still has no baseline, every
cycle attempted delivery, and the gate approves any candidate against the
absent baseline. -/
theorem C9_always_report_before_first_success (mid : String) (interval : Nat)
    (envs : List CycleEnv)
    (h : ∀ c ∈ envs, c.raise = false ∧ httpOk c.http = false) :
    (run_cycles mid interval envs initial_state).1.last_report = none
  ∧ (∀ a ∈ (run_cycles mid interval envs initial_state).2, a = true)
  ∧ ∀ r, should_report r none = true :=
  ⟨(run_cycles_no_success mid interval envs initial_state rfl h).1,
   (run_cycles_no_success mid interval envs initial_state rfl h).2,
   fun _ => rfl⟩

/-- C9 witness: three consecutive failing cycles from the initial state leave
the baseline absent and every cycle attempted delivery. -/
theorem C9_always_report_witness :
    (run_cycles "m" 900 [cycleFail, cycleFail, cycleFail] initial_state).1.last_report = none
  ∧ (∀ a ∈ (run_cycles "m" 900 [cycleFail, cycleFail, cycleFail] initial_state).2, a = true)
  ∧ ∀ r, should_report r none = true :=
  C9_always_report_before_first_success "m" 900 [cycleFail, cycleFail, cycleFail]
    (by
      intro c hc
      have hc2 : c = cycleFail := by
        rcases List.mem_cons.mp hc with h1 | h1
        · exact h1
        rcases List.mem_cons.mp h1 with h2 | h2
        · exact h2
        rcases List.mem_cons.mp h2 with h3 | h3
        · exact h3
        · exact absurd h3 (List.not_mem_nil c)
      rw [hc2]
      exact ⟨rfl, by decide⟩)

end HealthMonitor
